import Mathlib

/-!
Shallow embedding of the `llm-content-eval` application core
(`app/models.py`, `app/generation_service.py`, `app/evaluation_service.py`,
`app/llm_clients.py`, `app/routers/experiments.py`, `app/routers/generations.py`).

Conventions of the embedding:
* SQLAlchemy rows become Lean structures; the database session becomes an
  explicit `DB` value carrying the stored rows plus autoincrement counters.
* Python exceptions become `Except`; functions that mutate shared state before
  a possible raise return the post-state alongside the `Except` value, so the
  embedding is faithful to which mutations survive an exception.
* Randomness (`random.choice`, `random.sample`, blind-id minting) is exposed
  as explicit oracle parameters (an index, a pair of indices, a string).
* The external LLM provider interaction is a parameter
  `call : Except String (String × Nat × Nat)` (content, prompt tokens,
  completion tokens), matching the adapter capability of the system.
-/

namespace LLMEval

/-- Mirrors the `Task` row of `app/models.py` (fixed catalog entry). -/
structure Task where
  id : String
  content_type : String
  title : String
  description : String
  structured_prompt : String
  example_prompt_template : String
  deriving Repr, DecidableEq, Inhabited

/-- Mirrors the `Experiment` row of `app/models.py`.  `selected_models` is the
list of `(provider, model)` pairs stored in the JSON column. -/
structure Experiment where
  id : Nat
  name : String
  baseline_samples : List String
  selected_models : List (String × String)
  selected_strategies : List String
  selected_tasks : List String
  status : String
  deriving Repr, DecidableEq, Inhabited

/-- Mirrors the `Generation` row of `app/models.py`. -/
structure Generation where
  id : Nat
  experiment_id : Nat
  task_id : String
  model_provider : String
  model_name : String
  prompt_strategy : String
  prompt_used : String
  generated_content : String
  latency_ms : Nat
  prompt_tokens : Nat
  completion_tokens : Nat
  cost_usd : Rat
  deriving Repr, DecidableEq, Inhabited

/-- Mirrors the `Evaluation` row of `app/models.py`. -/
structure Evaluation where
  id : Nat
  generation_id : Nat
  experiment_id : Nat
  blind_id : String
  voice_match : Int
  coherence : Int
  engaging : Int
  meets_brief : Int
  overall_quality : Int
  edit_time_minutes : Int
  would_publish : String
  notes : String
  evaluation_time_seconds : Option Int
  deriving Repr, DecidableEq, Inhabited

/-- The persisted store: the four tables plus autoincrement counters for the
integer primary keys of `generations` and `evaluations`. -/
structure DB where
  experiments : List Experiment
  tasks : List Task
  generations : List Generation
  evaluations : List Evaluation
  next_gen_id : Nat
  next_eval_id : Nat
  deriving Repr, DecidableEq, Inhabited

/-- Decidable equality on `Except`, used to evaluate concrete scenarios. -/
instance {ε α : Type} [DecidableEq ε] [DecidableEq α] :
    DecidableEq (Except ε α) := fun a b =>
  match a, b with
  | .ok x, .ok y =>
    if h : x = y then .isTrue (by rw [h]) else .isFalse (by simp [h])
  | .error x, .error y =>
    if h : x = y then .isTrue (by rw [h]) else .isFalse (by simp [h])
  | .ok _, .error _ => .isFalse (by simp)
  | .error _, .ok _ => .isFalse (by simp)

/-- `db.query(Experiment).filter(Experiment.id == eid).first()`. -/
def findExp (db : DB) (eid : Nat) : Option Experiment :=
  db.experiments.find? (fun e => e.id == eid)

/-- `db.query(Task).filter(Task.id == tid).first()`. -/
def findTask (db : DB) (tid : String) : Option Task :=
  db.tasks.find? (fun t => t.id == tid)

/-- `GenerationService.prepare_prompt` (`app/generation_service.py`).
`random.sample(baseline_samples, 2)` picks entries at two distinct random
positions; the randomness is exposed as the index parameters `i j` (callers
that model a genuine draw supply `i ≠ j` below the length).  With fewer than
two samples the code uses `baseline_samples + baseline_samples`.  The literal
placeholders are `\x7bsample1\x7d` and `\x7bsample2\x7d`. -/
def prepare_prompt (task : Task) (strategy : String) (baseline_samples : List String)
    (i j : Nat) : Except String String :=
  if strategy = "structured" then
    .ok task.structured_prompt
  else if strategy = "example_based" then
    let samples : List String :=
      if 2 ≤ baseline_samples.length then
        [baseline_samples.getD i "", baseline_samples.getD j ""]
      else
        baseline_samples ++ baseline_samples
    let p1 := task.example_prompt_template.replace "\x7bsample1\x7d"
      (if samples.isEmpty then "" else samples.getD 0 "")
    let p2 := p1.replace "\x7bsample2\x7d"
      (if 1 < samples.length then samples.getD 1 "" else "")
    .ok p2
  else
    .error ("Unknown strategy: " ++ strategy)

/-- Mirrors `schemas.BlindItem`: the only data returned to a blind evaluator. -/
structure BlindItem where
  blind_id : String
  content : String
  task_title : String
  task_description : String
  content_type : String
  deriving Repr, DecidableEq, Inhabited

/-- Mirrors `schemas.EvaluationSubmit`. -/
structure EvaluationSubmit where
  blind_id : String
  voice_match : Int
  coherence : Int
  engaging : Int
  meets_brief : Int
  overall_quality : Int
  edit_time_minutes : Int
  would_publish : String
  notes : String
  deriving Repr, DecidableEq, Inhabited

/-- The in-memory `EvaluationService.blind_id_cache` dict
(blind id ↦ generation id), as an association list. -/
abbrev EvalState := List (String × Nat)

/-- `self.blind_id_cache.get(b)`. -/
def cacheLookup (st : EvalState) (b : String) : Option Nat :=
  (st.find? (fun p => p.1 == b)).map (fun p => p.2)

/-- `self.blind_id_cache[b] = g` (dict assignment overwrites any old entry). -/
def cacheInsert (st : EvalState) (b : String) (g : Nat) : EvalState :=
  (b, g) :: st.filter (fun p => p.1 != b)

/-- `del self.blind_id_cache[b]`. -/
def cacheErase (st : EvalState) (b : String) : EvalState :=
  st.filter (fun p => p.1 != b)

/-- `EvaluationService.get_next_blind_item`.  The eligible pool is the
generations of the experiment with no associated Evaluation
(`~Generation.evaluation.has()`); `random.choice` is exposed as the index
parameter `choice` (reduced modulo the pool size), and the minted blind id as
the parameter `blind`.  The cache entry is written before the task lookup, so
it survives even when the task row is missing (in which case `task.title`
raises in Python, embedded as `.error`). -/
def get_next_blind_item (st : EvalState) (db : DB) (eid : Nat)
    (choice : Nat) (blind : String) : Except String (Option BlindItem) × EvalState :=
  let unevaluated := db.generations.filter
    (fun g => g.experiment_id == eid &&
      !(db.evaluations.any (fun ev => ev.generation_id == g.id)))
  if unevaluated.isEmpty then (.ok none, st)
  else
    let generation := unevaluated.getD (choice % unevaluated.length) default
    let st1 := cacheInsert st blind generation.id
    match findTask db generation.task_id with
    | none => (.error "task missing", st1)
    | some task =>
      (.ok (some { blind_id := blind, content := generation.generated_content,
                   task_title := task.title, task_description := task.description,
                   content_type := task.content_type }), st1)

/-- The four `ValueError`s raised by `EvaluationService.submit_evaluation`:
`evalExistsForBlind` and `evalExistsForGeneration` are the Conflict /
AlreadyEvaluated cases, `invalidBlindId` and `generationNotFound` the NotFound
cases. -/
inductive SubmitError where
  | evalExistsForBlind
  | invalidBlindId
  | generationNotFound
  | evalExistsForGeneration
  deriving Repr, DecidableEq

/-- Number of stored Generations of an experiment. -/
def countGens (db : DB) (eid : Nat) : Nat :=
  (db.generations.filter (fun g => g.experiment_id == eid)).length

/-- Number of stored Evaluations of an experiment. -/
def countEvals (db : DB) (eid : Nat) : Nat :=
  (db.evaluations.filter (fun ev => ev.experiment_id == eid)).length

/-- Assign `status` to the experiment row with primary key `eid` (the id is a
primary key, so at most one row matches). -/
def setStatus (db : DB) (eid : Nat) (s : String) : DB :=
  { db with experiments :=
      db.experiments.map (fun e => if e.id == eid then { e with status := s } else e) }

/-- `EvaluationService._check_experiment_completion`: recompute the two counts
from the store and mark the experiment complete when they are equal and
nonzero. -/
def check_experiment_completion (db : DB) (eid : Nat) : DB :=
  if countGens db eid != 0 && countGens db eid == countEvals db eid then
    match findExp db eid with
    | some _ => setStatus db eid "complete"
    | none => db
  else db

/-- `EvaluationService.submit_evaluation`.  Returns the raised error or the
created Evaluation, together with the post-state of the cache and the store
(the embedding returns the state in every case so that the effect of a raise
is visible).  `if not generation_id:` in Python is also true for a cached id
equal to `0`, which the embedding keeps via `gid?.getD 0 == 0`. -/
def submit_evaluation (st : EvalState) (db : DB) (sub : EvaluationSubmit)
    (evaluation_time_seconds : Option Int) :
    Except SubmitError Evaluation × EvalState × DB :=
  let gid? := cacheLookup st sub.blind_id
  if gid?.getD 0 == 0 then
    if db.evaluations.any (fun ev => ev.blind_id == sub.blind_id) then
      (.error .evalExistsForBlind, st, db)
    else
      (.error .invalidBlindId, st, db)
  else
    let gid := gid?.getD 0
    match db.generations.find? (fun g => g.id == gid) with
    | none => (.error .generationNotFound, st, db)
    | some generation =>
      if db.evaluations.any (fun ev => ev.generation_id == gid) then
        (.error .evalExistsForGeneration, st, db)
      else
        let evaluation : Evaluation :=
          { id := db.next_eval_id, generation_id := gid,
            experiment_id := generation.experiment_id, blind_id := sub.blind_id,
            voice_match := sub.voice_match, coherence := sub.coherence,
            engaging := sub.engaging, meets_brief := sub.meets_brief,
            overall_quality := sub.overall_quality,
            edit_time_minutes := sub.edit_time_minutes,
            would_publish := sub.would_publish, notes := sub.notes,
            evaluation_time_seconds := evaluation_time_seconds }
        let db1 : DB :=
          { db with
            evaluations := db.evaluations ++ [evaluation],
            next_eval_id := db.next_eval_id + 1 }
        let st1 := cacheErase st sub.blind_id
        let db2 := check_experiment_completion db1 generation.experiment_id
        (.ok evaluation, st1, db2)

/-- `EvaluationService.skip_blind_item`. -/
def skip_blind_item (st : EvalState) (blind : String) : Bool × EvalState :=
  if (cacheLookup st blind).isSome then (true, cacheErase st blind) else (false, st)

/-- A concrete submission with a blind id that was never issued. -/
def subC2 : EvaluationSubmit :=
  { blind_id := "XXXX0000", voice_match := 3, coherence := 3, engaging := 3,
    meets_brief := 3, overall_quality := 3, edit_time_minutes := 10,
    would_publish := "yes", notes := "" }

/-- Concrete task used in witness scenarios. -/
def tkC8 : Task :=
  { id := "A", content_type := "blog_intro", title := "T", description := "D",
    structured_prompt := "SP",
    example_prompt_template := "Intro \x7bsample1\x7d and \x7bsample2\x7d" }

/-- A concrete stored Generation (experiment 1, task "A"), not yet evaluated. -/
def gen0 : Generation :=
  { id := 1, experiment_id := 1, task_id := "A", model_provider := "openai",
    model_name := "gpt-4", prompt_strategy := "structured", prompt_used := "SP",
    generated_content := "hello", latency_ms := 5, prompt_tokens := 3,
    completion_tokens := 4, cost_usd := 0 }

/-- A concrete experiment row. -/
def exp0 : Experiment :=
  { id := 1, name := "E", baseline_samples := [],
    selected_models := [("openai", "gpt-4")],
    selected_strategies := ["structured"], selected_tasks := ["A"],
    status := "evaluating" }

/-- Concrete store with one experiment, one task, one unevaluated generation. -/
def dbC1 : DB :=
  { experiments := [exp0], tasks := [tkC8], generations := [gen0],
    evaluations := [], next_gen_id := 2, next_eval_id := 1 }

/-- First issue call on `dbC1` (fresh blind id "AAAA1111"). -/
def issueC1a : Except String (Option BlindItem) × EvalState :=
  get_next_blind_item [] dbC1 1 0 "AAAA1111"

/-- Second issue call, with "AAAA1111" still outstanding. -/
def issueC1b : Except String (Option BlindItem) × EvalState :=
  get_next_blind_item issueC1a.2 dbC1 1 0 "BBBB2222"

/-- Generation parameter blob (a MODELS config "params" entry, opaque here). -/
abbrev Params := String

/-- Usage metadata computed by `LLMClient.generate` (`app/llm_clients.py`). -/
structure Meta where
  latency_ms : Nat
  prompt_tokens : Nat
  completion_tokens : Nat
  cost_usd : Rat
  deriving Repr, DecidableEq, Inhabited

/-- Python's `round(x, 6)` on the exact rational (ties behave as half-up
here; no claim depends on tie behaviour). -/
def round6 (q : Rat) : Rat := ((round (q * 1000000) : Int) : Rat) / 1000000

/-- `LLMClient._calculate_cost`: static per-1000-token price table
`(provider, model, input rate, output rate)`; a missing entry degrades to
zero cost. -/
def calculate_cost (pricing : List (String × String × Rat × Rat))
    (provider model : String) (prompt_tokens completion_tokens : Nat) : Rat :=
  match pricing.find? (fun r => r.1 == provider && r.2.1 == model) with
  | some r => round6 (((prompt_tokens : Rat) / 1000) * r.2.2.1 +
      ((completion_tokens : Rat) / 1000) * r.2.2.2)
  | none => 0

/-- `LLMClient.generate`: the provider interaction (network call, credential
check, unknown-provider `ValueError`) is the external capability `call`
yielding content and token counts; the surrounding `try/except` converts any
failure into `(None, zero-usage metadata)` and never raises.  `elapsed` is
the measured wall-clock latency. -/
def llmGenerate (pricing : List (String × String × Rat × Rat))
    (provider model : String)
    (call : Except String (String × Nat × Nat)) (elapsed : Nat) :
    Option String × Meta :=
  match call with
  | .ok r =>
    (some r.1, { latency_ms := elapsed, prompt_tokens := r.2.1,
                 completion_tokens := r.2.2,
                 cost_usd := calculate_cost pricing provider model r.2.1 r.2.2 })
  | .error _ =>
    (none, { latency_ms := elapsed, prompt_tokens := 0, completion_tokens := 0,
             cost_usd := 0 })

/-- Environment of the generation pipeline: the MODELS config table, the
price table, the provider capability, the latency measurement, and the
sampling oracle feeding `prepare_prompt`. -/
structure Env where
  modelsTable : List (String × Params)
  pricing : List (String × String × Rat × Rat)
  call : String → String → String → Params → Except String (String × Nat × Nat)
  elapsed : Nat
  pick : List String → Nat × Nat

/-- `GenerationService.generate_single`: look up experiment and task, prepare
the prompt, read `MODELS[provider]["params"]`, call the adapter (which never
raises) and insert the Generation row.  The `ValueError`s and the `KeyError`
on a missing MODELS entry are the `.error` cases; note this path performs no
duplicate check. -/
def generate_single (env : Env) (db : DB) (eid : Nat)
    (tid provider model strategy : String) : Except String (DB × Generation) :=
  match findExp db eid with
  | none => .error "Experiment not found"
  | some experiment =>
    match findTask db tid with
    | none => .error "Task not found"
    | some task =>
      let ij := env.pick experiment.baseline_samples
      match prepare_prompt task strategy experiment.baseline_samples ij.1 ij.2 with
      | .error err => .error err
      | .ok prompt =>
        match env.modelsTable.find? (fun r => r.1 == provider) with
        | none => .error "KeyError: provider not in MODELS"
        | some pr =>
          let cm := llmGenerate env.pricing provider model
            (env.call provider model prompt pr.2) env.elapsed
          let generation : Generation :=
            { id := db.next_gen_id, experiment_id := eid, task_id := tid,
              model_provider := provider, model_name := model,
              prompt_strategy := strategy, prompt_used := prompt,
              generated_content := cm.1.getD "",
              latency_ms := cm.2.latency_ms, prompt_tokens := cm.2.prompt_tokens,
              completion_tokens := cm.2.completion_tokens,
              cost_usd := cm.2.cost_usd }
          .ok ({ db with
                 generations := db.generations ++ [generation],
                 next_gen_id := db.next_gen_id + 1 }, generation)

/-- One (provider, model, strategy, task) combination of the sweep. -/
abbrev Combo := String × String × String × String

/-- The nested loop order of `generate_all_for_experiment`: models outermost,
then strategies, then tasks. -/
def sweepCombos (e : Experiment) : List Combo :=
  e.selected_models.flatMap (fun pm =>
    e.selected_strategies.flatMap (fun s =>
      e.selected_tasks.map (fun t => (pm.1, pm.2, s, t))))

/-- The resumption key (task, provider, strategy) of a combination — the
model name is not part of the dedup predicate in the code. -/
def comboKey (c : Combo) : String × String × String := (c.2.2.2, c.1, c.2.2.1)

/-- The dedup predicate of the sweep's existence check, on one row. -/
def keyMatch (eid : Nat) (k : String × String × String) (g : Generation) : Bool :=
  g.experiment_id == eid && g.task_id == k.1 && g.model_provider == k.2.1 &&
    g.prompt_strategy == k.2.2

/-- The sweep's `db.query(Generation).filter(...).first()` existence check. -/
def findExisting (db : DB) (eid : Nat) (k : String × String × String) :
    Option Generation :=
  db.generations.find? (keyMatch eid k)

/-- Whether some stored Generation carries the resumption key. -/
def existsKeyB (gens : List Generation) (eid : Nat)
    (k : String × String × String) : Bool :=
  gens.any (keyMatch eid k)

/-- Number of stored Generations carrying the resumption key. -/
def countKey (gens : List Generation) (eid : Nat)
    (k : String × String × String) : Nat :=
  (gens.filter (keyMatch eid k)).length

/-- One iteration of the sweep loop (the per-combination `try/except` body):
the accumulator is (store, collected generations, completed counter).  An
existing combination is reused, a created one appended, and a raising one
skipped — in every case `completed` is incremented. -/
def sweepStep (env : Env) (eid : Nat) (acc : DB × List Generation × Nat)
    (c : Combo) : DB × List Generation × Nat :=
  match findExisting acc.1 eid (comboKey c) with
  | some existing => (acc.1, acc.2.1 ++ [existing], acc.2.2 + 1)
  | none =>
    match generate_single env acc.1 eid c.2.2.2 c.1 c.2.1 c.2.2.1 with
    | .ok r => (r.1, acc.2.1 ++ [r.2], acc.2.2 + 1)
    | .error _ => (acc.1, acc.2.1, acc.2.2 + 1)

/-- `GenerationService.generate_all_for_experiment`: set status "generating",
run the sweep over every combination, set status "evaluating". -/
def generate_all_for_experiment (env : Env) (db : DB) (eid : Nat) :
    Except String (DB × List Generation) :=
  match findExp db eid with
  | none => .error "Experiment not found"
  | some experiment =>
    let db1 := setStatus db eid "generating"
    let acc := (sweepCombos experiment).foldl (sweepStep env eid) (db1, [], 0)
    .ok (setStatus acc.1 eid "evaluating", acc.2.1)

/-- The experiment-status update route of `routers/experiments.py`: 404 when
the experiment is missing, 400 for a value outside the four valid statuses,
otherwise set the requested status unconditionally. -/
def update_experiment_status (db : DB) (eid : Nat) (status : String) :
    Except (Nat × String) DB :=
  match findExp db eid with
  | none => .error (404, "Experiment not found")
  | some _ =>
    if ["setup", "generating", "evaluating", "complete"].contains status then
      .ok (setStatus db eid status)
    else
      .error (400, "Invalid status")

/-- Position of a status in the lifecycle order
setup → generating → evaluating → complete. -/
def statusRank (s : String) : Nat :=
  if s = "setup" then 0
  else if s = "generating" then 1
  else if s = "evaluating" then 2
  else 3

/-- Response of `GenerationService.get_generation_progress`.  `in_progress`
is Python int subtraction and can be negative, hence `Int`; `percentage` is
the exact rational rounded to one decimal (tie behaviour as in `round6`). -/
structure GenProgress where
  experiment_id : Nat
  status : String
  total : Nat
  completed : Nat
  failed : Nat
  in_progress : Int
  percentage : Rat
  deriving Repr, DecidableEq, Inhabited

/-- Python's `round(x, 1)` on the exact rational. -/
def round1 (q : Rat) : Rat := ((round (q * 10) : Int) : Rat) / 10

/-- `GenerationService.get_generation_progress`: `total` is the combinatorial
product of the selected lists, `completed` the count of all stored rows
(never capped by `total`), `failed` the count of empty-content rows. -/
def get_generation_progress (db : DB) (eid : Nat) : Option GenProgress :=
  match findExp db eid with
  | none => none
  | some e =>
    let total := e.selected_models.length * e.selected_strategies.length *
      e.selected_tasks.length
    let completed := (db.generations.filter (fun g => g.experiment_id == eid)).length
    let failed := (db.generations.filter
      (fun g => g.experiment_id == eid && g.generated_content == "")).length
    some { experiment_id := eid, status := e.status, total := total,
           completed := completed, failed := failed,
           in_progress := if e.status == "generating" then
             (total : Int) - (completed : Int) else 0,
           percentage := if 0 < total then
             round1 (((completed : Rat) / (total : Rat)) * 100) else 0 }

/-- Referential well-formedness of the store, maintained by the evaluation
intake: distinct Evaluations reference distinct Generations, and every
Evaluation references a stored Generation of the same experiment. -/
def WF (db : DB) : Prop :=
  (db.evaluations.map (fun ev => ev.generation_id)).Nodup ∧
    ∀ ev ∈ db.evaluations, ∃ g, g ∈ db.generations ∧ g.id = ev.generation_id ∧
      g.experiment_id = ev.experiment_id

/-- Cache state with the blind id "AAAA1111" outstanding for Generation 1. -/
def stC5 : EvalState := [("AAAA1111", 1)]

/-- A concrete submission for the outstanding blind id "AAAA1111". -/
def subC5 : EvaluationSubmit :=
  { blind_id := "AAAA1111", voice_match := 4, coherence := 4, engaging := 4,
    meets_brief := 4, overall_quality := 5, edit_time_minutes := 5,
    would_publish := "yes", notes := "" }

/-- The Evaluation row `submit_evaluation stC5 dbC1 subC5 none` creates. -/
def evC5 : Evaluation :=
  { id := 1, generation_id := 1, experiment_id := 1, blind_id := "AAAA1111",
    voice_match := 4, coherence := 4, engaging := 4, meets_brief := 4,
    overall_quality := 5, edit_time_minutes := 5, would_publish := "yes",
    notes := "", evaluation_time_seconds := none }

/-- The experiment row after the completing submit on `dbC1`. -/
def expC5 : Experiment := { exp0 with status := "complete" }

/-- Experiment row already marked complete. -/
def expC4 : Experiment := { exp0 with status := "complete" }

/-- Store whose only experiment is complete. -/
def dbC4 : DB := { dbC1 with experiments := [expC4] }

/-- Environment whose provider capability always fails. -/
def envFail : Env :=
  { modelsTable := [("openai", "tuned")], pricing := [],
    call := fun _ _ _ _ => .error "boom", elapsed := 7,
    pick := fun _ => (0, 1) }

/-- Environment whose provider capability always succeeds. -/
def envOk : Env :=
  { modelsTable := [("openai", "tuned")], pricing := [],
    call := fun _ _ _ _ => .ok ("out", 10, 5), elapsed := 3,
    pick := fun _ => (0, 1) }

/-- Fresh experiment in setup state with a 1 x 1 x 1 selection. -/
def expC10 : Experiment := { exp0 with status := "setup" }

/-- Store for the C10 scenario: experiment 1 in setup, no generations. -/
def dbC10a : DB :=
  { experiments := [expC10], tasks := [tkC8], generations := [],
    evaluations := [], next_gen_id := 1, next_eval_id := 1 }

/-- After the first single-generation call. -/
def dbC10b : DB :=
  match generate_single envOk dbC10a 1 "A" "openai" "gpt-4" "structured" with
  | .ok r => r.1
  | .error _ => dbC10a

/-- After the second single-generation call for the same combination (the
single path performs no duplicate check). -/
def dbC10c : DB :=
  match generate_single envOk dbC10b 1 "A" "openai" "gpt-4" "structured" with
  | .ok r => r.1
  | .error _ => dbC10b

/-- After the status-update request to "generating". -/
def dbC10d : DB :=
  match update_experiment_status dbC10c 1 "generating" with
  | .ok d => d
  | .error _ => dbC10c

/-- The progress record reported on `dbC10d`. -/
def pC10 : GenProgress :=
  { experiment_id := 1, status := "generating", total := 1, completed := 2,
    failed := 0, in_progress := -1, percentage := 200 }

/-- The experiment row of `dbC10d`. -/
def expC10g : Experiment := { expC10 with status := "generating" }

/-- Observational agreement of two Generation rows from the evaluator's
viewpoint: same identity, experiment, task and generated content; model,
provider, strategy, prompt and all metrics are left unconstrained. -/
def agreeG (g1 g2 : Generation) : Prop :=
  g1.id = g2.id ∧ g1.experiment_id = g2.experiment_id ∧
    g1.task_id = g2.task_id ∧ g1.generated_content = g2.generated_content

/-- A Generation agreeing with `gen0` on id/experiment/task/content but with
different provider, model, strategy, prompt and latency. -/
def genC7 : Generation :=
  { gen0 with
    model_provider := "anthropic",
    model_name := "claude-3-opus",
    prompt_strategy := "example_based",
    prompt_used := "OTHER",
    latency_ms := 99 }

/-- `dbC1` with its only generation replaced by the provenance-differing
`genC7`. -/
def dbC7 : DB := { dbC1 with generations := [genC7] }

/-- C8: example-based prompt construction: with zero baseline samples both
placeholders resolve to the empty string; with exactly one sample both
placeholders receive that sample; with at least two samples the two
placeholders receive the entries at the two (distinct) sampled positions,
i.e. a draw without replacement from the pool. -/
theorem c8_example_prompt_placeholders :
    (∀ (task : Task) (i j : Nat),
      prepare_prompt task "example_based" [] i j =
        .ok ((task.example_prompt_template.replace "\x7bsample1\x7d" "").replace
          "\x7bsample2\x7d" "")) ∧
    (∀ (task : Task) (a : String) (i j : Nat),
      prepare_prompt task "example_based" [a] i j =
        .ok ((task.example_prompt_template.replace "\x7bsample1\x7d" a).replace
          "\x7bsample2\x7d" a)) ∧
    (∀ (task : Task) (samples : List String) (i j : Nat),
      2 ≤ samples.length → i < samples.length → j < samples.length → i ≠ j →
      prepare_prompt task "example_based" samples i j =
        .ok ((task.example_prompt_template.replace "\x7bsample1\x7d"
          (samples.getD i "")).replace "\x7bsample2\x7d" (samples.getD j ""))) := by
  refine ⟨?_, ?_, ?_⟩
  · intro task i j
    simp [prepare_prompt]
  · intro task a i j
    simp [prepare_prompt]
  · intro task samples i j h2 hi hj hij
    simp [prepare_prompt, h2]

/-- Witness for C8 at a concrete two-sample pool. -/
theorem c8_example_prompt_placeholders_witness :
    prepare_prompt tkC8 "example_based" ["A", "B"] 0 1 =
      .ok ((tkC8.example_prompt_template.replace "\x7bsample1\x7d"
        (["A", "B"].getD 0 "")).replace "\x7bsample2\x7d" (["A", "B"].getD 1 "")) :=
  c8_example_prompt_placeholders.2.2 tkC8 ["A", "B"] 0 1 (by decide) (by decide)
    (by decide) (by decide)

/-- C1 counterexample: on the concrete store `dbC1` (one unevaluated
Generation, id 1), two successive issue calls leave both blind identifiers
"AAAA1111" and "BBBB2222" outstanding (neither submitted nor skipped), and
both map to the same Generation 1: the eligible pool of
`get_next_blind_item` does not exclude Generations with an outstanding
assignment. -/
theorem c1_counterexample_same_generation_issued_twice :
    cacheLookup issueC1b.2 "AAAA1111" = some 1 ∧
    cacheLookup issueC1b.2 "BBBB2222" = some 1 ∧
    issueC1a.1 ≠ Except.ok none ∧ issueC1b.1 ≠ Except.ok none := by
  decide

/-- C1 amended: the eligible pool of an issue call excludes only Generations
that already have an Evaluation, not Generations with an outstanding
assignment.  Hence every entry of the outstanding map after an issue call is
either an old entry or maps the fresh blind identifier to some Generation of
the experiment that has no Evaluation — the same Generation may concurrently
back several outstanding blind identifiers. -/
theorem c1_amended_issue_draws_from_unevaluated_pool (st : EvalState) (db : DB)
    (eid choice : Nat) (blind b : String) (g : Nat)
    (hmem : (b, g) ∈ (get_next_blind_item st db eid choice blind).2) :
    (b, g) ∈ st ∨
      (b = blind ∧ ∃ gen, gen ∈ db.generations ∧ gen.id = g ∧
        gen.experiment_id = eid ∧ ∀ ev ∈ db.evaluations, ev.generation_id ≠ gen.id) := by
  simp only [get_next_blind_item] at hmem
  by_cases hpool : (db.generations.filter
      (fun gn => gn.experiment_id == eid &&
        !(db.evaluations.any (fun ev => ev.generation_id == gn.id)))).isEmpty
  · rw [if_pos hpool] at hmem
    exact Or.inl hmem
  · rw [if_neg hpool] at hmem
    set pool := db.generations.filter
      (fun gn => gn.experiment_id == eid &&
        !(db.evaluations.any (fun ev => ev.generation_id == gn.id))) with hpooldef
    have hmem' : (b, g) ∈ cacheInsert st blind
        (pool.getD (choice % pool.length) default).id := by
      rcases hT : findTask db (pool.getD (choice % pool.length) default).task_id with _ | tk
      · rw [hT] at hmem
        exact hmem
      · rw [hT] at hmem
        exact hmem
    have hne : pool ≠ [] := by
      simpa using hpool
    have hlen : 0 < pool.length := List.length_pos.mpr hne
    have hidx : choice % pool.length < pool.length := Nat.mod_lt _ hlen
    have hmemPool : pool.getD (choice % pool.length) default ∈ pool := by
      rw [List.getD_eq_getElem _ _ hidx]
      exact List.getElem_mem hidx
    rw [hpooldef] at hmemPool
    have hfil := List.mem_filter.mp hmemPool
    rcases hfil with ⟨hgenMem, hprop⟩
    simp only [Bool.and_eq_true, beq_iff_eq, Bool.not_eq_true',
      List.any_eq_false] at hprop
    rcases hprop with ⟨hexp, hnoEval⟩
    rcases List.mem_cons.mp hmem' with heq | hold
    · rcases Prod.mk.injEq .. ▸ heq with ⟨hb, hg⟩
      refine Or.inr ⟨hb, pool.getD (choice % pool.length) default, hgenMem, hg.symm ▸ rfl, hexp, ?_⟩
      intro ev hev
      have := hnoEval ev hev
      simpa using this
    · exact Or.inl (List.mem_filter.mp hold).1

/-- Witness for the amended C1 theorem at the concrete first issue call. -/
theorem c1_amended_issue_draws_from_unevaluated_pool_witness :
    ("AAAA1111", 1) ∈ ([] : EvalState) ∨
      ("AAAA1111" = "AAAA1111" ∧ ∃ gen, gen ∈ dbC1.generations ∧ gen.id = 1 ∧
        gen.experiment_id = 1 ∧ ∀ ev ∈ dbC1.evaluations, ev.generation_id ≠ gen.id) :=
  c1_amended_issue_draws_from_unevaluated_pool [] dbC1 1 0 "AAAA1111" "AAAA1111" 1
    (by decide)

/-- C2: submit failure modes.  With the blind identifier not outstanding,
submit fails with the NotFound error when no stored Evaluation carries the
identifier, and with the Conflict error when one does; with the identifier
outstanding and resolved to a stored Generation that already has an
Evaluation, submit fails with the AlreadyEvaluated error; and every failing
submit leaves the stored Evaluations unchanged (no second Evaluation is
created). -/
theorem c2_submit_conflict_and_notfound (st : EvalState) (db : DB)
    (sub : EvaluationSubmit) (secs : Option Int) :
    (cacheLookup st sub.blind_id = none →
      ((∀ ev ∈ db.evaluations, ev.blind_id ≠ sub.blind_id) →
        (submit_evaluation st db sub secs).1 = .error .invalidBlindId) ∧
      ((∃ ev ∈ db.evaluations, ev.blind_id = sub.blind_id) →
        (submit_evaluation st db sub secs).1 = .error .evalExistsForBlind)) ∧
    (∀ gid gen, cacheLookup st sub.blind_id = some gid → gid ≠ 0 →
      db.generations.find? (fun g => g.id == gid) = some gen →
      (∃ ev ∈ db.evaluations, ev.generation_id = gid) →
      (submit_evaluation st db sub secs).1 = .error .evalExistsForGeneration) ∧
    (∀ e, (submit_evaluation st db sub secs).1 = .error e →
      (submit_evaluation st db sub secs).2.2.evaluations = db.evaluations) := by
  refine ⟨?_, ?_, ?_⟩
  · intro hnone
    constructor
    · intro hnoev
      have hany : (db.evaluations.any fun ev => ev.blind_id == sub.blind_id) = false := by
        simp only [List.any_eq_false]
        intro ev hev
        simpa using hnoev ev hev
      simp [submit_evaluation, hnone, hany]
    · intro hex
      have hany : (db.evaluations.any fun ev => ev.blind_id == sub.blind_id) = true := by
        rcases hex with ⟨ev, hev, hb⟩
        exact List.any_eq_true.mpr ⟨ev, hev, by simpa using hb⟩
      simp [submit_evaluation, hnone, hany]
  · intro gid gen hsome hgid hfind hex
    have hany : (db.evaluations.any fun ev => ev.generation_id == gid) = true := by
      rcases hex with ⟨ev, hev, hb⟩
      exact List.any_eq_true.mpr ⟨ev, hev, by simpa using hb⟩
    simp [submit_evaluation, hsome, hgid, hfind, hany]
  · intro e h
    by_cases h1 : ((cacheLookup st sub.blind_id).getD 0 == 0) = true
    · by_cases h2 : (db.evaluations.any fun ev => ev.blind_id == sub.blind_id) = true
      · simp [submit_evaluation, h1, h2]
      · simp [submit_evaluation, h1, h2]
    · rcases hf : db.generations.find?
          (fun g => g.id == (cacheLookup st sub.blind_id).getD 0) with _ | gen
      · simp [submit_evaluation, h1, hf]
      · by_cases h3 : (db.evaluations.any fun ev =>
            ev.generation_id == (cacheLookup st sub.blind_id).getD 0) = true
        · simp [submit_evaluation, h1, hf, h3]
        · simp [submit_evaluation, h1, hf, h3] at h

/-- Witness for C2: submitting a never-issued blind id on `dbC1` fails with
the NotFound error. -/
theorem c2_submit_conflict_and_notfound_witness :
    (submit_evaluation [] dbC1 subC2 none).1 = .error .invalidBlindId :=
  ((c2_submit_conflict_and_notfound [] dbC1 subC2 none).1 (by decide)).1 (by decide)

/-- C9: every failing submit is atomic: when `submit_evaluation` raises, the
outstanding blind-identifier map and the whole store are left unchanged. -/
theorem c9_submit_failure_is_atomic (st : EvalState) (db : DB)
    (sub : EvaluationSubmit) (secs : Option Int) (e : SubmitError)
    (h : (submit_evaluation st db sub secs).1 = .error e) :
    (submit_evaluation st db sub secs).2.1 = st ∧
      (submit_evaluation st db sub secs).2.2 = db := by
  by_cases h1 : ((cacheLookup st sub.blind_id).getD 0 == 0) = true
  · by_cases h2 : (db.evaluations.any fun ev => ev.blind_id == sub.blind_id) = true
    · simp [submit_evaluation, h1, h2]
    · simp [submit_evaluation, h1, h2]
  · rcases hf : db.generations.find?
        (fun g => g.id == (cacheLookup st sub.blind_id).getD 0) with _ | gen
    · simp [submit_evaluation, h1, hf]
    · by_cases h3 : (db.evaluations.any fun ev =>
          ev.generation_id == (cacheLookup st sub.blind_id).getD 0) = true
      · simp [submit_evaluation, h1, hf, h3]
      · simp [submit_evaluation, h1, hf, h3] at h

/-- Witness for C9 at a concrete failing submit. -/
theorem c9_submit_failure_is_atomic_witness :
    (submit_evaluation [] dbC1 subC2 none).2.1 = [] ∧
      (submit_evaluation [] dbC1 subC2 none).2.2 = dbC1 :=
  c9_submit_failure_is_atomic [] dbC1 subC2 none .invalidBlindId (by decide)

/-- Shape of a successful submit: the blind id resolved to a nonzero cached
generation id whose Generation row exists and has no Evaluation yet, the
returned Evaluation is the inserted row, and the final store is the inserted
store run through completion detection. -/
theorem submit_success_shape (st : EvalState) (db : DB) (sub : EvaluationSubmit)
    (secs : Option Int) (ev : Evaluation)
    (h : (submit_evaluation st db sub secs).1 = .ok ev) :
    ∃ gid gen,
      cacheLookup st sub.blind_id = some gid ∧ gid ≠ 0 ∧
      db.generations.find? (fun g => g.id == gid) = some gen ∧
      (db.evaluations.any fun e' => e'.generation_id == gid) = false ∧
      ev = { id := db.next_eval_id, generation_id := gid,
             experiment_id := gen.experiment_id, blind_id := sub.blind_id,
             voice_match := sub.voice_match, coherence := sub.coherence,
             engaging := sub.engaging, meets_brief := sub.meets_brief,
             overall_quality := sub.overall_quality,
             edit_time_minutes := sub.edit_time_minutes,
             would_publish := sub.would_publish, notes := sub.notes,
             evaluation_time_seconds := secs } ∧
      (submit_evaluation st db sub secs).2.2 =
        check_experiment_completion
          { db with evaluations := db.evaluations ++ [ev],
                    next_eval_id := db.next_eval_id + 1 }
          gen.experiment_id := by
  by_cases h1 : ((cacheLookup st sub.blind_id).getD 0 == 0) = true
  · by_cases h2 : (db.evaluations.any fun e' => e'.blind_id == sub.blind_id) = true
    · simp [submit_evaluation, h1, h2] at h
    · simp [submit_evaluation, h1, h2] at h
  · rcases hf : db.generations.find?
        (fun g => g.id == (cacheLookup st sub.blind_id).getD 0) with _ | gen
    · simp [submit_evaluation, h1, hf] at h
    · by_cases h3 : (db.evaluations.any fun e' =>
          e'.generation_id == (cacheLookup st sub.blind_id).getD 0) = true
      · simp [submit_evaluation, h1, hf, h3] at h
      · have hgid : (cacheLookup st sub.blind_id).getD 0 ≠ 0 := by
          simpa using h1
        have hsome : cacheLookup st sub.blind_id =
            some ((cacheLookup st sub.blind_id).getD 0) := by
          rcases hc : cacheLookup st sub.blind_id with _ | x
          · rw [hc] at hgid
            exact absurd rfl hgid
          · rfl
        refine ⟨(cacheLookup st sub.blind_id).getD 0, gen, hsome, hgid, hf,
          by simpa using h3, ?_, ?_⟩
        · have h' := h
          simp [submit_evaluation, h1, hf, h3] at h'
          exact h'.symm
        · have h' := h
          simp [submit_evaluation, h1, hf, h3] at h'
          rw [← h']
          simp [submit_evaluation, h1, hf, h3]

/-- C5: on a well-formed store every experiment has at most as many
Evaluations as Generations; a successful submit preserves well-formedness
(the counts are recomputed from the persisted rows), and in the resulting
store every experiment row owning the new Evaluation whose Generation and
Evaluation counts are equal and nonzero carries status "complete". -/
theorem c5_count_invariant_and_completion (db : DB) (hwf : WF db) :
    (∀ eid, countEvals db eid ≤ countGens db eid) ∧
    (∀ (st : EvalState) (sub : EvaluationSubmit) (secs : Option Int)
        (ev : Evaluation),
      (submit_evaluation st db sub secs).1 = .ok ev →
      WF (submit_evaluation st db sub secs).2.2 ∧
      (∀ exp ∈ (submit_evaluation st db sub secs).2.2.experiments,
        exp.id = ev.experiment_id →
        countGens (submit_evaluation st db sub secs).2.2 exp.id ≠ 0 →
        countGens (submit_evaluation st db sub secs).2.2 exp.id =
          countEvals (submit_evaluation st db sub secs).2.2 exp.id →
        exp.status = "complete")) := by
  constructor
  · intro eid
    have hM : ((db.evaluations.filter (fun e' => e'.experiment_id == eid)).map
        (fun e' => e'.generation_id)).Nodup :=
      ((List.filter_sublist db.evaluations).map _).nodup hwf.1
    have hsubset : ((db.evaluations.filter (fun e' => e'.experiment_id == eid)).map
        (fun e' => e'.generation_id)) ⊆
        ((db.generations.filter (fun g => g.experiment_id == eid)).map
          (fun g => g.id)) := by
      intro x hx
      rcases List.mem_map.mp hx with ⟨e', he', rfl⟩
      rcases List.mem_filter.mp he' with ⟨hmem, hprop⟩
      rcases hwf.2 e' hmem with ⟨g, hg, hgid, hgexp⟩
      refine List.mem_map.mpr ⟨g, List.mem_filter.mpr ⟨hg, ?_⟩, hgid⟩
      have heq : e'.experiment_id = eid := by simpa using hprop
      simp [hgexp, heq]
    have hle := (List.subperm_of_subset hM hsubset).length_le
    simpa [countEvals, countGens] using hle
  · intro st sub secs ev h
    rcases submit_success_shape st db sub secs ev h with
      ⟨gid, gen, hsome, hgid, hf, hnoev, hev, hdb⟩
    have hgenmem : gen ∈ db.generations := List.mem_of_find?_eq_some hf
    have hgenid : gen.id = gid := by
      have := List.find?_some hf
      simpa using this
    -- the store after the insert, before completion detection
    set db1 : DB := { db with
      evaluations := db.evaluations ++ [ev],
      next_eval_id := db.next_eval_id + 1 } with hdb1
    have hgens1 : db1.generations = db.generations := rfl
    have hevals1 : db1.evaluations = db.evaluations ++ [ev] := rfl
    have hwf1 : WF db1 := by
      constructor
      · rw [hevals1, List.map_append, List.map_cons, List.map_nil, List.nodup_append]
        refine ⟨hwf.1, List.nodup_singleton _, ?_⟩
        intro x hx hx'
        have hxg : x = gid := by
          have hx1 := List.mem_singleton.mp hx'
          rw [hx1, hev]
        rcases List.mem_map.mp hx with ⟨e', he', rfl⟩
        have hfa := List.any_eq_false.mp hnoev e' he'
        rw [hxg] at hfa
        simp at hfa
      · intro e' he'
        rw [hevals1] at he'
        rw [hgens1]
        rcases List.mem_append.mp he' with he' | he'
        · exact hwf.2 e' he'
        · have he'' : e' = ev := by simpa using he'
          subst he''
          exact ⟨gen, hgenmem, by rw [hev, hgenid], by rw [hev]⟩
    constructor
    · rw [hdb]
      unfold check_experiment_completion
      split
      · rcases hfe : findExp db1 gen.experiment_id with _ | e0
        · exact hwf1
        · exact hwf1
      · exact hwf1
    · intro exp hexp hid hne hcnt
      rw [hdb] at hexp hne hcnt
      unfold check_experiment_completion at hexp hne hcnt
      by_cases hcond : (countGens db1 gen.experiment_id != 0 &&
          countGens db1 gen.experiment_id == countEvals db1 gen.experiment_id) = true
      · rw [if_pos hcond] at hexp hne hcnt
        rcases hfe : findExp db1 gen.experiment_id with _ | e0
        · rw [hfe] at hexp
          have hnone := List.find?_eq_none.mp hfe exp hexp
          have hexpid : exp.id = gen.experiment_id := by rw [hid, hev]
          exact absurd (by simpa using hexpid) hnone
        · rw [hfe] at hexp hne hcnt
          simp only [setStatus, List.mem_map] at hexp
          rcases hexp with ⟨e1, he1, rfl⟩
          by_cases he1id : (e1.id == gen.experiment_id) = true
          · simp [he1id]
          · exfalso
            rw [if_neg he1id] at hid
            have he1eq : e1.id = gen.experiment_id := by rw [hid, hev]
            simp [he1eq] at he1id
      · exfalso
        rw [if_neg hcond] at hexp hne hcnt
        apply hcond
        have hexpid : exp.id = gen.experiment_id := by rw [hid, hev]
        rw [hexpid] at hne hcnt
        simp only [Bool.and_eq_true, bne_iff_ne, ne_eq, beq_iff_eq]
        exact ⟨hne, hcnt⟩

/-- Witness for C5: on `dbC1` with "AAAA1111" outstanding, the count
inequality holds and the completing submit marks experiment 1 complete. -/
theorem c5_count_invariant_and_completion_witness :
    countEvals dbC1 1 ≤ countGens dbC1 1 ∧ expC5.status = "complete" :=
  ⟨(c5_count_invariant_and_completion dbC1 ⟨by decide, by decide⟩).1 1,
    ((c5_count_invariant_and_completion dbC1 ⟨by decide, by decide⟩).2 stC5 subC5
      none evC5 (by decide)).2 expC5 (by decide) (by decide) (by decide) (by decide)⟩

/-- C4 counterexample: a status-update request — one of the normal operations
the claim lists — moves experiment 1 from "complete" back to "setup",
reversing the lifecycle order. -/
theorem c4_counterexample_status_reversal :
    (findExp dbC4 1).map (fun e => e.status) = some "complete" ∧
    update_experiment_status dbC4 1 "setup" = .ok (setStatus dbC4 1 "setup") ∧
    (findExp (setStatus dbC4 1 "setup") 1).map (fun e => e.status) = some "setup" ∧
    statusRank "setup" < statusRank "complete" := by
  decide

/-- C4 amended: the status-update endpoint validates only membership in the
four valid values and stores any of them verbatim regardless of the current
status, so the lifecycle order setup → generating → evaluating → complete is
not enforced and can be reversed by a status-update request (the sweep
likewise overwrites the status unconditionally). -/
theorem c4_amended_status_update_unrestricted (db : DB) (eid : Nat)
    (e : Experiment) (hfind : findExp db eid = some e) (s : String)
    (hs : s ∈ ["setup", "generating", "evaluating", "complete"]) :
    update_experiment_status db eid s = .ok (setStatus db eid s) ∧
    ∀ e' ∈ (setStatus db eid s).experiments, e'.id = eid → e'.status = s := by
  constructor
  · have hc : (["setup", "generating", "evaluating", "complete"].contains s) = true := by
      simpa using hs
    simp only [update_experiment_status, hfind]
    rw [if_pos hc]
  · intro e' he' hid
    simp only [setStatus, List.mem_map] at he'
    rcases he' with ⟨e0, he0, rfl⟩
    by_cases h0 : (e0.id == eid) = true
    · simp [h0]
    · rw [if_neg h0] at hid
      exact absurd (by simp [hid]) h0

/-- Witness for the amended C4 theorem: the concrete reversing update is
accepted. -/
theorem c4_amended_status_update_unrestricted_witness :
    update_experiment_status dbC4 1 "setup" = .ok (setStatus dbC4 1 "setup") :=
  (c4_amended_status_update_unrestricted dbC4 1 expC4 (by decide) "setup"
    (by decide)).1

/-- Valid strategies never make `prepare_prompt` raise. -/
theorem prepare_prompt_ok (task : Task) (strategy : String)
    (samples : List String) (i j : Nat)
    (h : strategy = "structured" ∨ strategy = "example_based") :
    ∃ p, prepare_prompt task strategy samples i j = .ok p := by
  rcases h with h | h <;> subst h
  · exact ⟨_, rfl⟩
  · exact ⟨_, rfl⟩

/-- C6: a failing provider call is caught at the adapter boundary —
`llmGenerate` returns no content and zero token/cost usage instead of
raising — the combination is still stored as a Generation record with empty
content and zero usage, and the sweep step counts every combination
(including failing ones) toward completion. -/
theorem c6_provider_failure_stored (env : Env) (db : DB) (eid : Nat)
    (tid provider model strategy : String) (err : String)
    (hcall : ∀ prompt params, env.call provider model prompt params = .error err)
    (hexp : (findExp db eid).isSome) (htask : (findTask db tid).isSome)
    (hstrat : strategy = "structured" ∨ strategy = "example_based")
    (hprov : (env.modelsTable.find? (fun r => r.1 == provider)).isSome) :
    (∀ (c : String) (el : Nat), llmGenerate env.pricing provider model (.error c) el =
      (none, { latency_ms := el, prompt_tokens := 0, completion_tokens := 0,
               cost_usd := 0 })) ∧
    (∃ g, generate_single env db eid tid provider model strategy =
        .ok ({ db with
               generations := db.generations ++ [g],
               next_gen_id := db.next_gen_id + 1 }, g) ∧
      g.generated_content = "" ∧ g.prompt_tokens = 0 ∧
      g.completion_tokens = 0 ∧ g.cost_usd = 0) ∧
    (∀ (acc : DB × List Generation × Nat) (c : Combo),
      (sweepStep env eid acc c).2.2 = acc.2.2 + 1) := by
  refine ⟨fun c el => rfl, ?_, ?_⟩
  · rcases Option.isSome_iff_exists.mp hexp with ⟨e, he⟩
    rcases Option.isSome_iff_exists.mp htask with ⟨task, ht⟩
    rcases Option.isSome_iff_exists.mp hprov with ⟨pr, hpr⟩
    rcases prepare_prompt_ok task strategy e.baseline_samples
        (env.pick e.baseline_samples).1 (env.pick e.baseline_samples).2 hstrat with
      ⟨prompt, hprompt⟩
    refine ⟨{ id := db.next_gen_id, experiment_id := eid, task_id := tid,
              model_provider := provider, model_name := model,
              prompt_strategy := strategy, prompt_used := prompt,
              generated_content := "", latency_ms := env.elapsed,
              prompt_tokens := 0, completion_tokens := 0, cost_usd := 0 },
            ?_, rfl, rfl, rfl, rfl⟩
    simp [generate_single, he, ht, hprompt, hpr, hcall, llmGenerate]
  · intro acc c
    unfold sweepStep
    rcases findExisting acc.1 eid (comboKey c) with _ | ex
    · rcases generate_single env acc.1 eid c.2.2.2 c.1 c.2.1 c.2.2.1 with r | r
      · rfl
      · rfl
    · rfl

/-- Witness for C6: the failing environment `envFail` still yields a stored
Generation with empty content and zero usage on `dbC1`. -/
theorem c6_provider_failure_stored_witness :
    ∃ g, generate_single envFail dbC1 1 "A" "openai" "gpt-4" "structured" =
        .ok ({ dbC1 with
               generations := dbC1.generations ++ [g],
               next_gen_id := dbC1.next_gen_id + 1 }, g) ∧
      g.generated_content = "" ∧ g.prompt_tokens = 0 ∧
      g.completion_tokens = 0 ∧ g.cost_usd = 0 :=
  (c6_provider_failure_stored envFail dbC1 1 "A" "openai" "gpt-4" "structured"
    "boom" (fun _ _ => rfl) (by decide) (by decide) (Or.inl rfl) (by decide)).2.1

/-- C10: `get_generation_progress` derives `completed` from the stored rows
without capping at the combinatorial total, and the reachable state `dbC10d`
(sweep-equivalent single generation, a duplicate single generation for the
same combination, then a status update to "generating") reports
completed = 2 > 1 = total, percentage = 200 > 100 and in_progress = -1 < 0. -/
theorem c10_progress_uncapped_overcount :
    (∀ (db : DB) (eid : Nat) (p : GenProgress),
      get_generation_progress db eid = some p →
      p.completed = (db.generations.filter (fun g => g.experiment_id == eid)).length ∧
      (∀ e, findExp db eid = some e →
        p.total = e.selected_models.length * e.selected_strategies.length *
          e.selected_tasks.length)) ∧
    get_generation_progress dbC10d 1 = some pC10 ∧
    pC10.total < pC10.completed ∧ (100 : Rat) < pC10.percentage ∧
    pC10.in_progress < 0 := by
  have hfind : findExp dbC10d 1 = some expC10g := by decide
  have hprog : get_generation_progress dbC10d 1 = some pC10 := by
    unfold get_generation_progress
    rw [hfind]
    simp only [Option.some.injEq, GenProgress.mk.injEq, pC10]
    refine ⟨by decide, by decide, by decide, by decide, by decide, by decide, ?_⟩
    have h2 : (dbC10d.generations.filter (fun g => g.experiment_id == 1)).length = 2 := by
      decide
    have h1 : expC10g.selected_models.length * expC10g.selected_strategies.length *
        expC10g.selected_tasks.length = 1 := by decide
    rw [h2, h1]
    norm_num [round1, round_eq]
  refine ⟨?_, hprog, by decide, by norm_num [pC10], by decide⟩
  intro db eid p hp
  unfold get_generation_progress at hp
  rcases hfe : findExp db eid with _ | e
  · rw [hfe] at hp
    cases hp
  · rw [hfe] at hp
    have hp' := Option.some.inj hp
    constructor
    · rw [← hp']
    · intro e' he'
      have he'' := Option.some.inj he'
      subst he''
      rw [← hp']

/-- Witness for C10's general clause at the concrete overcounted state. -/
theorem c10_progress_uncapped_overcount_witness :
    pC10.completed = (dbC10d.generations.filter (fun g => g.experiment_id == 1)).length ∧
    pC10.total = expC10g.selected_models.length * expC10g.selected_strategies.length *
      expC10g.selected_tasks.length :=
  ⟨((c10_progress_uncapped_overcount).1 dbC10d 1 pC10
      (c10_progress_uncapped_overcount).2.1).1,
    ((c10_progress_uncapped_overcount).1 dbC10d 1 pC10
      (c10_progress_uncapped_overcount).2.1).2 expC10g (by decide)⟩

/-- `Forall₂` is preserved by filtering with predicates that agree across the
relation. -/
theorem forall2_filter {α : Type} {R : α → α → Prop} {p q : α → Bool}
    (hpq : ∀ a b, R a b → p a = q b) :
    ∀ {l1 l2 : List α}, List.Forall₂ R l1 l2 →
      List.Forall₂ R (l1.filter p) (l2.filter q) := by
  intro l1 l2 h
  induction h with
  | nil => simp
  | @cons a b l1' l2' hab htl ih =>
    have hq := hpq a b hab
    by_cases hpa : p a = true
    · have hqb : q b = true := by rw [← hq]; exact hpa
      rw [List.filter_cons, List.filter_cons, if_pos hpa, if_pos hqb]
      exact List.Forall₂.cons hab ih
    · have hqb : ¬ q b = true := by rw [← hq]; exact hpa
      rw [List.filter_cons, List.filter_cons, if_neg hpa, if_neg hqb]
      exact ih

/-- `Forall₂` lists have related `getD` entries when the defaults relate. -/
theorem forall2_getD {α : Type} (R : α → α → Prop) {d1 d2 : α}
    (hd : R d1 d2) :
    ∀ {l1 l2 : List α}, List.Forall₂ R l1 l2 → ∀ n,
      R (l1.getD n d1) (l2.getD n d2) := by
  intro l1 l2 h
  induction h with
  | nil => intro n; simpa using hd
  | @cons a b l1' l2' hab htl ih =>
    intro n
    cases n with
    | zero => simpa using hab
    | succ m => simpa using ih m

/-- C7: the blind view returned by an issue call is determined solely by the
minted blind id, the generated content and the task framing: two stores with
the same tasks and evaluations whose generation lists agree pointwise on
id/experiment/task/content — while differing arbitrarily in model, provider,
strategy, prompt and metrics — produce identical issue results, so none of
the latter fields can leak to the evaluator. -/
theorem c7_blind_view_independent_of_provenance (st : EvalState) (db1 db2 : DB)
    (eid choice : Nat) (blind : String)
    (htasks : db1.tasks = db2.tasks) (hevals : db1.evaluations = db2.evaluations)
    (hgens : List.Forall₂ agreeG db1.generations db2.generations) :
    (get_next_blind_item st db1 eid choice blind).1 =
      (get_next_blind_item st db2 eid choice blind).1 := by
  unfold get_next_blind_item
  set p1 := db1.generations.filter (fun g => g.experiment_id == eid &&
    !(db1.evaluations.any (fun ev => ev.generation_id == g.id))) with hp1
  set p2 := db2.generations.filter (fun g => g.experiment_id == eid &&
    !(db2.evaluations.any (fun ev => ev.generation_id == g.id))) with hp2
  have hfil : List.Forall₂ agreeG p1 p2 := by
    rw [hp1, hp2]
    refine forall2_filter ?_ hgens
    intro a b hab
    rcases hab with ⟨hid, hexp, htid, hcont⟩
    rw [hid, hexp, hevals]
  have hlen : p1.length = p2.length := hfil.length_eq
  by_cases hemp : p1.isEmpty = true
  · have hemp2 : p2.isEmpty = true := by
      rw [List.isEmpty_iff_length_eq_zero] at hemp ⊢
      rw [← hlen]
      exact hemp
    rw [if_pos hemp, if_pos hemp2]
  · have hemp2 : ¬ p2.isEmpty = true := by
      intro hc
      apply hemp
      rw [List.isEmpty_iff_length_eq_zero] at hc ⊢
      rw [hlen]
      exact hc
    rw [if_neg hemp, if_neg hemp2, ← hlen]
    dsimp only
    have hrel := forall2_getD agreeG
      (⟨rfl, rfl, rfl, rfl⟩ : agreeG default default) hfil (choice % p1.length)
    rcases hrel with ⟨hid, hexp, htid, hcont⟩
    have hT : findTask db1 (p1.getD (choice % p1.length) default).task_id =
        findTask db2 (p2.getD (choice % p1.length) default).task_id := by
      unfold findTask
      rw [htasks, htid]
    rcases hS : findTask db2 (p2.getD (choice % p1.length) default).task_id
        with _ | tk
    · rw [hT, hS]
    · rw [hT, hS]
      simpa using hcont

/-- Witness for C7: `dbC1` and `dbC7` differ only in provenance fields of the
one generation and yield the same blind item. -/
theorem c7_blind_view_independent_of_provenance_witness :
    (get_next_blind_item [] dbC1 1 0 "AAAA1111").1 =
      (get_next_blind_item [] dbC7 1 0 "AAAA1111").1 :=
  c7_blind_view_independent_of_provenance [] dbC1 dbC7 1 0 "AAAA1111" rfl rfl
    (List.Forall₂.cons ⟨by decide, by decide, by decide, by decide⟩
      List.Forall₂.nil)

/-- Splitting a length by a predicate. -/
theorem length_filter_pos_neg {α : Type} (l : List α) (p : α → Bool) :
    (l.filter p).length + (l.filter (fun a => !(p a))).length = l.length := by
  induction l with
  | nil => rfl
  | cons a l ih =>
    rcases Bool.eq_false_or_eq_true (p a) with h | h
    · simp [List.filter_cons, h]
      omega
    · simp [List.filter_cons, h]
      omega

/-- `keyMatch` characterised: the row belongs to the experiment and its
resumption key equals `k`. -/
theorem keyMatch_true_iff (eid : Nat) (k : String × String × String)
    (g : Generation) :
    keyMatch eid k g = true ↔ g.experiment_id = eid ∧
      k = (g.task_id, g.model_provider, g.prompt_strategy) := by
  rcases k with ⟨k1, k2, k3⟩
  unfold keyMatch
  simp only [Bool.and_eq_true, beq_iff_eq, Prod.mk.injEq]
  constructor
  · rintro ⟨⟨⟨h1, h2⟩, h3⟩, h4⟩
    exact ⟨h1, h2.symm, h3.symm, h4.symm⟩
  · rintro ⟨h1, h2, h3, h4⟩
    exact ⟨⟨⟨h1, h2.symm⟩, h3.symm⟩, h4.symm⟩

/-- `setStatus` does not change which experiments are found. -/
theorem findExp_setStatus_isSome (db : DB) (eid : Nat) (s : String)
    (eid' : Nat) :
    (findExp (setStatus db eid s) eid').isSome = (findExp db eid').isSome := by
  unfold findExp setStatus
  dsimp only
  generalize db.experiments = l
  induction l with
  | nil => rfl
  | cons x xs ih =>
    have hid : (if (x.id == eid) = true then { x with status := s } else x).id =
        x.id := by
      by_cases hx : (x.id == eid) = true
      · rw [if_pos hx]
      · rw [if_neg hx]
    by_cases hx' : (x.id == eid') = true
    · have hq : ((if (x.id == eid) = true then { x with status := s } else x).id ==
          eid') = true := by
        rw [hid]
        exact hx'
      rw [List.map_cons]
      simp only [List.find?_cons, hq, hx']
      rfl
    · rw [Bool.not_eq_true] at hx'
      have hq : ((if (x.id == eid) = true then { x with status := s } else x).id ==
          eid') = false := by
        rw [hid]
        exact hx'
      rw [List.map_cons]
      simp only [List.find?_cons, hq, hx']
      exact ih

/-- The sweep enumerates exactly |models| * |strategies| * |tasks|
combinations. -/
theorem sweepCombos_length (e : Experiment) :
    (sweepCombos e).length = e.selected_models.length *
      e.selected_strategies.length * e.selected_tasks.length := by
  unfold sweepCombos
  suffices h : ∀ (ms : List (String × String)) (ss ts : List String),
      (ms.flatMap (fun pm => ss.flatMap (fun s =>
        ts.map (fun t => (pm.1, pm.2, s, t))))).length =
        ms.length * ss.length * ts.length by
    exact h _ _ _
  intro ms ss ts
  induction ms with
  | nil => simp
  | cons m ms ihm =>
    have hinner : ∀ (ss' : List String),
        (ss'.flatMap (fun s => ts.map (fun t => (m.1, m.2, s, t)))).length =
          ss'.length * ts.length := by
      intro ss'
      induction ss' with
      | nil => simp
      | cons s ss' ihs =>
        simp only [List.flatMap_cons, List.length_append, List.length_map, ihs,
          List.length_cons]
        ring
    simp only [List.flatMap_cons, List.length_append, ihm, hinner,
      List.length_cons]
    ring

/-- `generate_single` succeeds when the experiment and task exist, the
strategy is valid and the provider is configured, appending one row carrying
the combination's key. -/
theorem generate_single_ok (env : Env) (db : DB) (eid : Nat)
    (tid provider model strategy : String)
    (hexp : (findExp db eid).isSome) (htask : (findTask db tid).isSome)
    (hstrat : strategy = "structured" ∨ strategy = "example_based")
    (hprov : (env.modelsTable.find? (fun r => r.1 == provider)).isSome) :
    ∃ g, generate_single env db eid tid provider model strategy =
        .ok ({ db with
               generations := db.generations ++ [g],
               next_gen_id := db.next_gen_id + 1 }, g) ∧
      g.experiment_id = eid ∧ g.task_id = tid ∧ g.model_provider = provider ∧
      g.prompt_strategy = strategy ∧ g.id = db.next_gen_id := by
  rcases Option.isSome_iff_exists.mp hexp with ⟨e, he⟩
  rcases Option.isSome_iff_exists.mp htask with ⟨task, ht⟩
  rcases Option.isSome_iff_exists.mp hprov with ⟨pr, hpr⟩
  rcases prepare_prompt_ok task strategy e.baseline_samples
      (env.pick e.baseline_samples).1 (env.pick e.baseline_samples).2 hstrat with
    ⟨prompt, hprompt⟩
  refine ⟨{ id := db.next_gen_id, experiment_id := eid, task_id := tid,
            model_provider := provider, model_name := model,
            prompt_strategy := strategy, prompt_used := prompt,
            generated_content := (llmGenerate env.pricing provider model
              (env.call provider model prompt pr.2) env.elapsed).1.getD "",
            latency_ms := (llmGenerate env.pricing provider model
              (env.call provider model prompt pr.2) env.elapsed).2.latency_ms,
            prompt_tokens := (llmGenerate env.pricing provider model
              (env.call provider model prompt pr.2) env.elapsed).2.prompt_tokens,
            completion_tokens := (llmGenerate env.pricing provider model
              (env.call provider model prompt pr.2) env.elapsed).2.completion_tokens,
            cost_usd := (llmGenerate env.pricing provider model
              (env.call provider model prompt pr.2) env.elapsed).2.cost_usd },
          ?_, rfl, rfl, rfl, rfl, rfl⟩
  simp [generate_single, he, ht, hprompt, hpr]

/-- The sweep fold: starting from any store, processing combinations with
pairwise-distinct keys and valid lookups appends exactly one new row per
combination whose key was absent, each new row carrying one of the processed
keys, and leaves every other table unchanged. -/
theorem sweep_fold_spec (env : Env) (eid : Nat) :
    ∀ (cs : List Combo) (dbA : DB) (gens0 : List Generation) (n0 : Nat),
      (∀ c ∈ cs, (findTask dbA c.2.2.2).isSome) →
      (∀ c ∈ cs, (env.modelsTable.find? (fun r => r.1 == c.1)).isSome) →
      (∀ c ∈ cs, c.2.2.1 = "structured" ∨ c.2.2.1 = "example_based") →
      (findExp dbA eid).isSome →
      (cs.map comboKey).Nodup →
      ∃ new,
        (cs.foldl (sweepStep env eid) (dbA, gens0, n0)).1.generations =
          dbA.generations ++ new ∧
        (cs.foldl (sweepStep env eid) (dbA, gens0, n0)).1.tasks = dbA.tasks ∧
        (cs.foldl (sweepStep env eid) (dbA, gens0, n0)).1.experiments =
          dbA.experiments ∧
        (cs.foldl (sweepStep env eid) (dbA, gens0, n0)).1.evaluations =
          dbA.evaluations ∧
        new.length = (cs.filter
          (fun c => !(existsKeyB dbA.generations eid (comboKey c)))).length ∧
        (∀ g ∈ new, g.experiment_id = eid ∧
          (g.task_id, g.model_provider, g.prompt_strategy) ∈ cs.map comboKey ∧
          existsKeyB dbA.generations eid
            (g.task_id, g.model_provider, g.prompt_strategy) = false) := by
  intro cs
  induction cs with
  | nil =>
    intro dbA gens0 n0 hT hP hS hE hK
    exact ⟨[], by simp, rfl, rfl, rfl, by simp, by simp⟩
  | cons c cs ih =>
    intro dbA gens0 n0 hT hP hS hE hK
    have hKtail : (cs.map comboKey).Nodup := (List.nodup_cons.mp (by simpa using hK)).2
    have hKhead : comboKey c ∉ cs.map comboKey :=
      (List.nodup_cons.mp (by simpa using hK)).1
    rcases hex : findExisting dbA eid (comboKey c) with _ | ex
    · -- the combination is new: generate_single succeeds and appends one row
      have hkeyc : existsKeyB dbA.generations eid (comboKey c) = false := by
        unfold existsKeyB
        rw [List.any_eq_false]
        intro a ha
        simpa using List.find?_eq_none.mp hex a ha
      rcases generate_single_ok env dbA eid c.2.2.2 c.1 c.2.1 c.2.2.1
          (hE) (hT c (List.mem_cons_self c cs)) (hS c (List.mem_cons_self c cs))
          (hP c (List.mem_cons_self c cs)) with
        ⟨g, hgs, hgexp, hgtid, hgprov, hgstrat, hgid⟩
      have hstep : sweepStep env eid (dbA, gens0, n0) c =
          ({ dbA with
             generations := dbA.generations ++ [g],
             next_gen_id := dbA.next_gen_id + 1 }, gens0 ++ [g], n0 + 1) := by
        simp only [sweepStep, hex, hgs]
      have hgkey : (g.task_id, g.model_provider, g.prompt_strategy) = comboKey c := by
        rw [hgtid, hgprov, hgstrat]
        rfl
      -- key facts in the grown store
      have hgrow : ∀ k, existsKeyB (dbA.generations ++ [g]) eid k =
          (existsKeyB dbA.generations eid k || keyMatch eid k g) := by
        intro k
        unfold existsKeyB
        rw [List.any_append]
        simp
      have hconv : ∀ c' ∈ cs,
          existsKeyB (dbA.generations ++ [g]) eid (comboKey c') =
            existsKeyB dbA.generations eid (comboKey c') := by
        intro c' hc'
        rw [hgrow]
        have hne : comboKey c' ≠ (g.task_id, g.model_provider, g.prompt_strategy) := by
          rw [hgkey]
          intro hcc
          exact hKhead (hcc ▸ List.mem_map_of_mem comboKey hc')
        have : keyMatch eid (comboKey c') g = false := by
          rw [← Bool.not_eq_true]
          intro hkm
          exact hne ((keyMatch_true_iff eid (comboKey c') g).mp hkm).2
        rw [this]
        simp
      rcases ih ({ dbA with
            generations := dbA.generations ++ [g],
            next_gen_id := dbA.next_gen_id + 1 }) (gens0 ++ [g]) (n0 + 1)
          (fun c' hc' => hT c' (List.mem_cons_of_mem c hc'))
          (fun c' hc' => hP c' (List.mem_cons_of_mem c hc'))
          (fun c' hc' => hS c' (List.mem_cons_of_mem c hc')) hE hKtail with
        ⟨new, hng, hnt, hnx, hnv, hnl, hnp⟩
      refine ⟨g :: new, ?_, ?_, ?_, ?_, ?_, ?_⟩
      · rw [List.foldl_cons, hstep, hng]
        simp [List.append_assoc]
      · rw [List.foldl_cons, hstep]
        exact hnt
      · rw [List.foldl_cons, hstep]
        exact hnx
      · rw [List.foldl_cons, hstep]
        exact hnv
      · have hpredc : (!(existsKeyB dbA.generations eid (comboKey c))) = true := by
          rw [hkeyc]
          rfl
        rw [List.filter_cons, if_pos hpredc, List.length_cons, hnl]
        have : cs.filter (fun c' => !(existsKeyB (dbA.generations ++ [g]) eid
              (comboKey c'))) =
            cs.filter (fun c' => !(existsKeyB dbA.generations eid (comboKey c'))) := by
          apply List.filter_congr
          intro c' hc'
          rw [hconv c' hc']
        rw [← this]
        rfl
      · intro g' hg'
        rcases List.mem_cons.mp hg' with hg' | hg'
        · subst hg'
          exact ⟨hgexp, by rw [hgkey]; exact List.mem_cons_self _ _, by
            rw [hgkey]; exact hkeyc⟩
        · rcases hnp g' hg' with ⟨h1, h2, h3⟩
          refine ⟨h1, List.mem_cons_of_mem _ h2, ?_⟩
          have := hgrow (g'.task_id, g'.model_provider, g'.prompt_strategy)
          rw [this] at h3
          exact (Bool.or_eq_false_iff.mp h3).1
    · -- the combination already exists: nothing is created
      have hkeyc : existsKeyB dbA.generations eid (comboKey c) = true := by
        unfold existsKeyB
        refine List.any_eq_true.mpr ⟨ex, List.mem_of_find?_eq_some hex, ?_⟩
        exact List.find?_some hex
      have hstep : sweepStep env eid (dbA, gens0, n0) c =
          (dbA, gens0 ++ [ex], n0 + 1) := by
        simp only [sweepStep, hex]
      rcases ih dbA (gens0 ++ [ex]) (n0 + 1)
          (fun c' hc' => hT c' (List.mem_cons_of_mem c hc'))
          (fun c' hc' => hP c' (List.mem_cons_of_mem c hc'))
          (fun c' hc' => hS c' (List.mem_cons_of_mem c hc')) hE hKtail with
        ⟨new, hng, hnt, hnx, hnv, hnl, hnp⟩
      refine ⟨new, ?_, ?_, ?_, ?_, ?_, ?_⟩
      · rw [List.foldl_cons, hstep]
        exact hng
      · rw [List.foldl_cons, hstep]
        exact hnt
      · rw [List.foldl_cons, hstep]
        exact hnx
      · rw [List.foldl_cons, hstep]
        exact hnv
      · have hpredc : (!(existsKeyB dbA.generations eid (comboKey c))) = false := by
          rw [hkeyc]
          rfl
        rw [List.filter_cons, if_neg (by rw [hpredc]; exact Bool.false_ne_true), hnl]
      · intro g' hg'
        rcases hnp g' hg' with ⟨h1, h2, h3⟩
        exact ⟨h1, List.mem_cons_of_mem _ h2, h3⟩

/-- C3: re-invoking the full sweep on an experiment with M combinations of
pairwise-distinct resumption keys, N of which already have a stored
Generation, succeeds and creates exactly M - N new Generations, and never
adds a row for a key that already had one. -/
theorem c3_sweep_resume_creates_exactly_missing (env : Env) (db : DB)
    (eid : Nat) (e : Experiment) (hfind : findExp db eid = some e)
    (hT : ∀ c ∈ sweepCombos e, (findTask db c.2.2.2).isSome)
    (hP : ∀ c ∈ sweepCombos e, (env.modelsTable.find? (fun r => r.1 == c.1)).isSome)
    (hS : ∀ c ∈ sweepCombos e, c.2.2.1 = "structured" ∨ c.2.2.1 = "example_based")
    (hK : ((sweepCombos e).map comboKey).Nodup) :
    ∃ db' gens, generate_all_for_experiment env db eid = .ok (db', gens) ∧
      (sweepCombos e).length = e.selected_models.length *
        e.selected_strategies.length * e.selected_tasks.length ∧
      ((sweepCombos e).filter
          (fun c => existsKeyB db.generations eid (comboKey c))).length ≤
        (sweepCombos e).length ∧
      db'.generations.length = db.generations.length +
        ((sweepCombos e).length -
          ((sweepCombos e).filter
            (fun c => existsKeyB db.generations eid (comboKey c))).length) ∧
      (∀ k, existsKeyB db.generations eid k = true →
        countKey db'.generations eid k = countKey db.generations eid k) := by
  have hE1 : (findExp (setStatus db eid "generating") eid).isSome = true := by
    rw [findExp_setStatus_isSome, hfind]
    rfl
  rcases sweep_fold_spec env eid (sweepCombos e) (setStatus db eid "generating")
      [] 0 hT hP hS hE1 hK with
    ⟨new, hng, hnt, hnx, hnv, hnl, hnp⟩
  refine ⟨setStatus ((sweepCombos e).foldl (sweepStep env eid)
      (setStatus db eid "generating", [], 0)).1 eid "evaluating",
    ((sweepCombos e).foldl (sweepStep env eid)
      (setStatus db eid "generating", [], 0)).2.1, ?_, sweepCombos_length e,
    ?_, ?_, ?_⟩
  · unfold generate_all_for_experiment
    rw [hfind]
  · have := length_filter_pos_neg (sweepCombos e)
      (fun c => existsKeyB db.generations eid (comboKey c))
    omega
  · have hsplit := length_filter_pos_neg (sweepCombos e)
      (fun c => existsKeyB db.generations eid (comboKey c))
    have hglen : (setStatus ((sweepCombos e).foldl (sweepStep env eid)
        (setStatus db eid "generating", [], 0)).1 eid
          "evaluating").generations.length =
        db.generations.length + new.length := by
      show ((sweepCombos e).foldl (sweepStep env eid)
        (setStatus db eid "generating", [], 0)).1.generations.length =
          db.generations.length + new.length
      rw [hng]
      rw [List.length_append]
      rfl
    have hnl' : new.length = ((sweepCombos e).filter
        (fun c => !(existsKeyB db.generations eid (comboKey c)))).length := hnl
    rw [hglen, hnl']
    omega
  · intro k hk
    have hgens : (setStatus ((sweepCombos e).foldl (sweepStep env eid)
        (setStatus db eid "generating", [], 0)).1 eid
          "evaluating").generations =
        db.generations ++ new := hng
    rw [hgens]
    unfold countKey
    rw [List.filter_append, List.length_append]
    have hzero : new.filter (keyMatch eid k) = [] := by
      rw [List.filter_eq_nil_iff]
      intro g' hg'
      intro hkm
      rcases (keyMatch_true_iff eid k g').mp hkm with ⟨h1, h2⟩
      rcases hnp g' hg' with ⟨h3, h4, h5⟩
      have h5' : existsKeyB db.generations eid
          (g'.task_id, g'.model_provider, g'.prompt_strategy) = false := h5
      rw [h2] at hk
      rw [hk] at h5'
      simp at h5'
    rw [hzero]
    rfl

/-- Witness for C3 on `dbC1`: the single combination already has a stored
Generation, so re-running the sweep creates no new rows. -/
theorem c3_sweep_resume_creates_exactly_missing_witness :
    ∃ r, generate_all_for_experiment envOk dbC1 1 = .ok r ∧
      r.1.generations.length = dbC1.generations.length := by
  obtain ⟨db', gens, hok, hM, hle, hlen, hcnt⟩ :=
    c3_sweep_resume_creates_exactly_missing envOk dbC1 1 exp0 (by decide)
      (by decide) (by decide) (by decide) (by decide)
  refine ⟨(db', gens), hok, ?_⟩
  have h1 : (sweepCombos exp0).length = 1 := by decide
  have h2 : ((sweepCombos exp0).filter
      (fun c => existsKeyB dbC1.generations 1 (comboKey c))).length = 1 := by
    decide
  rw [h1, h2] at hlen
  simpa using hlen

end LLMEval
